import Mathlib

/-!
Verification development for the agent-routing and conversational-state engine
of the gurukul-langchain repository.

Embedded source files:
* `src/agents/agent_chaining.py` — transition rules, chain contexts, the chain
  manager (`suggest_agent_transition`, `record_agent_interaction`,
  `get_chain_summary`, `route_to_best_agent`);
* `src/agents/base_agent.py` — `BaseAgent.respond` with its fallback logic and
  the `create_agent` factory;
* `src/backend/main.py` — the chain-state effect of one `interact_with_agent`
  call.

Modelling conventions: Python floats are modelled as exact rationals (`ℚ`);
Python dicts keyed by strings are association lists; a raised exception is an
`Except.error`; the mutable `active_chains` dict is threaded explicitly as a
store value.  Wall-clock timestamps and the uuid `chain_id` are not modelled —
no claim depends on them.  Python `str.lower` is modelled on the ASCII range
(every routing keyword is ASCII).
-/

namespace Gurukul

/-- ASCII lowercasing of one character (Python `str.lower`, ASCII range). -/
def lowerChar (c : Char) : Char :=
  if 'A' ≤ c ∧ c ≤ 'Z' then Char.ofNat (c.toNat + 32) else c

/-- Python `s.lower()`. -/
def strLower (s : String) : String := ⟨s.data.map lowerChar⟩

/-- Python substring containment `sub in s`. -/
def strContains (s sub : String) : Bool := decide (sub.data <:+: s.data)

/-- Python `s.startswith(p)`. -/
def strStarts (s p : String) : Bool := decide (p.data <+: s.data)

/-- Python whitespace characters stripped by `str.strip`. -/
def wsChar (c : Char) : Bool :=
  c = ' ' || c = '\t' || c = '\n' || c = '\r' || c = '\x0b' || c = '\x0c'

/-- Python `s.strip()`. -/
def strTrim (s : String) : String :=
  ⟨((s.data.dropWhile wsChar).reverse.dropWhile wsChar).reverse⟩

/-- Python slice `l[-n:]`: the last `n` elements. -/
def lastN (l : List α) (n : Nat) : List α := l.drop (l.length - n)

/-- Python `repr` of a string (single-quoted), as it appears inside `str(list)`. -/
def pyQuoted (s : String) : String := "\x27" ++ s ++ "\x27"

/-- Python `str` of a list of strings, e.g. `['why', 'explain']`. -/
def pyStrListAux : List String → String
  | [] => ""
  | [s] => pyQuoted s
  | s :: rest => pyQuoted s ++ ", " ++ pyStrListAux rest

/-- Python `str` of a list of strings, with enclosing brackets. -/
def pyStrList (l : List String) : String := "[" ++ pyStrListAux l ++ "]"

/-- Association-list read, modelling `d[k]` / `k in d` on a Python dict. -/
def alistGet [DecidableEq κ] (l : List (κ × α)) (k : κ) : Option α :=
  match l with
  | [] => none
  | (k', v) :: rest => if k' = k then some v else alistGet rest k

/-- Association-list write, modelling `d[k] = v` on a Python dict
(overwrites in place, inserts at the end when the key is new). -/
def alistSet [DecidableEq κ] (l : List (κ × α)) (k : κ) (v : α) : List (κ × α) :=
  match l with
  | [] => [(k, v)]
  | (k', v') :: rest => if k' = k then (k, v) :: rest else (k', v') :: alistSet rest k v

/-! ## Data model of `agent_chaining.py` -/

/-- The `AgentType` enum. -/
inductive AgentType where
  | seed
  | tree
  | sky
deriving DecidableEq

/-- The `value` of an `AgentType` member. -/
def AgentType.val : AgentType → String
  | .seed => "seed"
  | .tree => "tree"
  | .sky => "sky"

/-- Python `AgentType(s)`: `some` member with that value, `none` models the
`ValueError` raised for any other string. -/
def AgentType.ofString? (s : String) : Option AgentType :=
  if s = "seed" then some .seed
  else if s = "tree" then some .tree
  else if s = "sky" then some .sky
  else none

/-- A free-form insight dict (string keys and values; the `timestamp` entry
added by `add_agent_insight` is not modelled). -/
abbrev Insight := List (String × String)

/-- One entry of `conversation_history` (timestamp not modelled). -/
structure Turn where
  agent : String
  userInput : String
  agentResponse : String
deriving DecidableEq

/-- Python `AgentChainContext`: the shared per-(student, lesson) conversational state
(`chain_id` uuid not modelled). -/
structure AgentChainContext where
  studentId : String
  lessonId : Option String
  conversationHistory : List Turn := []
  agentInsights : List (String × List Insight) := []
  learningProgress : List (String × String) := []
  studentPreferences : List (String × String) := []
  unresolvedQuestions : List String := []
  keyConceptsCovered : List String := []
  emotionalState : String := "neutral"
  engagementLevel : String := "medium"
deriving DecidableEq

/-- Python `AgentChainContext.__init__`. -/
def newChainContext (studentId : String) (lessonId : Option String) : AgentChainContext :=
  { studentId := studentId, lessonId := lessonId }

/-- Python `AgentChainContext.add_agent_insight` (timestamp entry not modelled). -/
def AgentChainContext.addAgentInsight (c : AgentChainContext) (agentType : String)
    (insight : Insight) : AgentChainContext :=
  let prev := (alistGet c.agentInsights agentType).getD []
  { c with agentInsights := alistSet c.agentInsights agentType (prev ++ [insight]) }

/-- Python `AgentTransitionRule`. -/
structure AgentTransitionRule where
  fromAgent : AgentType
  toAgent : AgentType
  triggers : List String
  contextKeys : List String
  confidenceThreshold : ℚ
deriving DecidableEq

/-- The trigger-keyword part of `AgentTransitionRule.should_transition`
(lines 88-92): count the rule triggers occurring as substrings of the
lowercased input, divided by the number of triggers (0 for an empty list). -/
def AgentTransitionRule.triggerConfidence (rule : AgentTransitionRule)
    (userInput : String) : ℚ :=
  let userLower := strLower userInput
  let triggerScore : Nat :=
    (rule.triggers.map (fun t => if strContains userLower t then 1 else 0)).sum
  if rule.triggers ≠ [] then (triggerScore : ℚ) / (rule.triggers.length : ℚ) else 0

/-- The context part of `AgentTransitionRule.should_transition` (lines 94-103):
+0.3 when the from-agent has at least three recorded insights, +0.2 when
unresolved questions are present. -/
def AgentTransitionRule.contextScore (rule : AgentTransitionRule)
    (context : AgentChainContext) : ℚ :=
  (match alistGet context.agentInsights rule.fromAgent.val with
   | some insights => if insights.length ≥ 3 then 0.3 else 0
   | none => 0)
  + (if context.unresolvedQuestions ≠ [] then 0.2 else 0)

/-- Python `AgentTransitionRule.should_transition` (lines 86-108): the pair
`(should_transition, total_confidence)`. -/
def AgentTransitionRule.shouldTransitionEval (rule : AgentTransitionRule)
    (userInput : String) (context : AgentChainContext) : Bool × ℚ :=
  let totalConfidence :=
    rule.triggerConfidence userInput * 0.7 + rule.contextScore context * 0.3
  (decide (rule.confidenceThreshold ≤ totalConfidence), totalConfidence)

/-- Python `AgentChainManager._initialize_transition_rules` (lines 117-173). -/
def transitionRules : List AgentTransitionRule :=
  [ { fromAgent := .seed, toAgent := .tree,
      triggers := ["why", "explain", "understand", "principle", "concept", "theory", "because"],
      contextKeys := ["practice_attempts", "skill_questions", "conceptual_gaps"],
      confidenceThreshold := 0.6 },
    { fromAgent := .tree, toAgent := .sky,
      triggers := ["meaning", "purpose", "spiritual", "soul", "deeper", "divine", "consciousness"],
      contextKeys := ["philosophical_questions", "meaning_seeking", "spiritual_curiosity"],
      confidenceThreshold := 0.6 },
    { fromAgent := .sky, toAgent := .seed,
      triggers := ["how", "practice", "apply", "implement", "daily", "routine", "habit"],
      contextKeys := ["insights_to_apply", "practical_needs", "implementation_questions"],
      confidenceThreshold := 0.6 },
    { fromAgent := .tree, toAgent := .seed,
      triggers := ["practice", "try", "do", "exercise", "apply", "implement", "steps"],
      contextKeys := ["ready_for_practice", "concept_understood"],
      confidenceThreshold := 0.7 },
    { fromAgent := .seed, toAgent := .sky,
      triggers := ["feel", "experience", "meaning", "why", "purpose", "spiritual"],
      contextKeys := ["experiential_questions", "deeper_inquiry"],
      confidenceThreshold := 0.7 },
    { fromAgent := .sky, toAgent := .tree,
      triggers := ["understand", "explain", "how", "what", "principle", "concept"],
      contextKeys := ["need_framework", "conceptual_clarity"],
      confidenceThreshold := 0.7 } ]

/-- The chain store `AgentChainManager.active_chains`. -/
abbrev ChainStore := List (String × AgentChainContext)

/-- The chain key (line 177); Python truthiness makes an empty lesson id
behave like a missing one. -/
def chainKey (studentId : String) (lessonId : Option String) : String :=
  match lessonId with
  | some l => if l = "" then studentId else studentId ++ "_" ++ l
  | none => studentId

/-- Python `AgentChainManager.get_or_create_chain` (lines 175-182). -/
def getOrCreateChain (store : ChainStore) (studentId : String)
    (lessonId : Option String) : AgentChainContext × ChainStore :=
  let key := chainKey studentId lessonId
  match alistGet store key with
  | some c => (c, store)
  | none =>
    let c := newChainContext studentId lessonId
    (c, alistSet store key c)

/-- The `student_state` sub-dict of a transition-context payload (line 226). -/
structure StudentState where
  engagement : String
  emotionalState : String
  learningProgress : List (String × String)
deriving DecidableEq

/-- The handoff payload built by `_prepare_transition_context` (lines 220-234). -/
structure TransitionContext where
  handoffSummary : String
  previousAgentInsights : List Insight
  studentState : StudentState
  conversationContext : List Turn
  unresolvedQuestions : List String
  recommendedApproach : String
deriving DecidableEq

/-- Python `AgentChainManager._get_transition_approach` (lines 236-247): the fixed
lookup table with its defensive default. -/
def getTransitionApproach (fromAgent toAgent : String) : String :=
  (alistGet
    [ (("seed", "tree"), "Build on practical experience to explore underlying principles"),
      (("tree", "sky"), "Deepen conceptual understanding into spiritual insight"),
      (("sky", "seed"), "Ground spiritual insights in practical application"),
      (("tree", "seed"), "Transform understanding into actionable practice"),
      (("seed", "sky"), "Reflect on the deeper meaning of practical experience"),
      (("sky", "tree"), "Clarify insights through conceptual frameworks") ]
    (fromAgent, toAgent)).getD "Smooth transition between perspectives"

/-- Python `AgentChainManager._prepare_transition_context` (lines 220-234). -/
def prepareTransitionContext (context : AgentChainContext)
    (fromAgent toAgent : String) : TransitionContext :=
  { handoffSummary := "Transitioning from " ++ fromAgent ++ " to " ++ toAgent
    previousAgentInsights := (alistGet context.agentInsights fromAgent).getD []
    studentState :=
      { engagement := context.engagementLevel
        emotionalState := context.emotionalState
        learningProgress := context.learningProgress }
    conversationContext := lastN context.conversationHistory 3
    unresolvedQuestions := context.unresolvedQuestions
    recommendedApproach := getTransitionApproach fromAgent toAgent }

/-- The dict returned by `suggest_agent_transition` (lines 202-218);
`transitionContext` is present only on the transition branch. -/
structure RoutingDecision where
  shouldTransition : Bool
  recommendedAgent : String
  confidence : ℚ
  reason : String
  transitionContext : Option TransitionContext := none
deriving DecidableEq

/-- The rule-scanning loop of `suggest_agent_transition` (lines 190-200):
keep the latest rule that clears its threshold with strictly higher
confidence than the best seen so far. -/
def scanRules (current : AgentType) (userInput : String) (context : AgentChainContext) :
    List AgentTransitionRule → Option AgentTransitionRule → ℚ →
    Option AgentTransitionRule × ℚ
  | [], best, bestConf => (best, bestConf)
  | rule :: rest, best, bestConf =>
    if rule.fromAgent = current then
      let eval := rule.shouldTransitionEval userInput context
      if eval.1 = true ∧ bestConf < eval.2 then
        scanRules current userInput context rest (some rule) eval.2
      else
        scanRules current userInput context rest best bestConf
    else
      scanRules current userInput context rest best bestConf

/-- The decision built by `suggest_agent_transition` (lines 190-218) once the
chain context is in hand and the current agent string has parsed. -/
def suggestFromContext (currentAgentType : AgentType) (userInput : String)
    (context : AgentChainContext) : RoutingDecision :=
  match scanRules currentAgentType userInput context transitionRules none 0 with
  | (some best, bestConf) =>
    { shouldTransition := true
      recommendedAgent := best.toAgent.val
      confidence := bestConf
      reason := "Detected transition triggers: " ++ pyStrList best.triggers
      transitionContext :=
        some (prepareTransitionContext context currentAgentType.val best.toAgent.val) }
  | (none, _) =>
    { shouldTransition := false
      recommendedAgent := currentAgentType.val
      confidence := 1
      reason := "No strong transition signals detected" }

/-- Python `AgentChainManager.suggest_agent_transition` (lines 184-218).  The chain is
fetched or created before the persona string is parsed, exactly as in the
source, so the store effect happens even when the `AgentType` constructor
raises `ValueError` (modelled as `Except.error`). -/
def suggestAgentTransition (currentAgent userInput studentId : String)
    (lessonId : Option String) (store : ChainStore) :
    Except String RoutingDecision × ChainStore :=
  let res := getOrCreateChain store studentId lessonId
  match AgentType.ofString? currentAgent with
  | none => (Except.error (pyQuoted currentAgent ++ " is not a valid AgentType"), res.2)
  | some t => (Except.ok (suggestFromContext t userInput res.1), res.2)

/-- Python `AgentChainManager._update_student_state` (lines 270-291). -/
def updateStudentState (context : AgentChainContext) (userInput : String) :
    AgentChainContext :=
  let engagement :=
    if userInput.length > 50 then "high"
    else if userInput.length < 10 then "low"
    else "medium"
  let positiveWords := ["thank", "great", "love", "amazing", "wonderful", "helpful"]
  let negativeWords := ["confused", "difficult", "hard", "frustrated", "stuck"]
  let userLower := strLower userInput
  let emotional :=
    if positiveWords.any (fun w => strContains userLower w) then "positive"
    else if negativeWords.any (fun w => strContains userLower w) then "challenged"
    else "neutral"
  { context with engagementLevel := engagement, emotionalState := emotional }

/-- Python `AgentChainManager.record_agent_interaction` (lines 249-268).  An empty
`insights` list models both Python `None` and a falsy empty dict. -/
def recordAgentInteraction (agentType userInput agentResponse studentId : String)
    (lessonId : Option String) (insights : Insight) (store : ChainStore) : ChainStore :=
  let res := getOrCreateChain store studentId lessonId
  let c1 := { res.1 with conversationHistory := res.1.conversationHistory ++
      [{ agent := agentType, userInput := userInput, agentResponse := agentResponse }] }
  let c2 := if insights ≠ [] then c1.addAgentInsight agentType insights else c1
  let c3 := updateStudentState c2 userInput
  alistSet res.2 (chainKey studentId lessonId) c3

/-- The dict returned by `get_chain_summary` (lines 297-307);
the uuid `chain_id` entry is not modelled. -/
structure ChainSummary where
  totalInteractions : Nat
  agentsUsed : List String
  engagement : String
  emotionalState : String
  learningProgress : List (String × String)
  unresolvedQuestionCount : Nat
deriving DecidableEq

/-- Python `AgentChainManager.get_chain_summary` (lines 293-307); like the source it
creates the chain when absent, so the possibly-grown store is returned too. -/
def getChainSummary (studentId : String) (lessonId : Option String)
    (store : ChainStore) : ChainSummary × ChainStore :=
  let res := getOrCreateChain store studentId lessonId
  ({ totalInteractions := res.1.conversationHistory.length
     agentsUsed := res.1.agentInsights.map Prod.fst
     engagement := res.1.engagementLevel
     emotionalState := res.1.emotionalState
     learningProgress := res.1.learningProgress
     unresolvedQuestionCount := res.1.unresolvedQuestions.length }, res.2)

/-- Python `AgentTransitionResult` (lines 23-32) for cold-start routing; the three
keyword scores carried inside `context_data["keyword_scores"]` are modelled as
explicit fields (`routing_type` and the nested echo of the same scores are
constants). -/
structure AgentTransitionResult where
  shouldTransition : Bool
  recommendedAgent : String
  confidence : ℚ
  reason : String
  practiceScore : Nat
  wisdomScore : Nat
  philosophyScore : Nat
deriving DecidableEq

/-- The practice keyword list of `route_to_best_agent` (line 366). -/
def routePracticeKeywords : List String :=
  ["how", "practice", "do", "steps", "exercise", "daily", "routine", "action", "implement"]

/-- The wisdom keyword list of `route_to_best_agent` (line 367). -/
def routeWisdomKeywords : List String :=
  ["why", "meaning", "understand", "explain", "concept", "principle", "learn", "teach"]

/-- The philosophy keyword list of `route_to_best_agent` (line 368). -/
def routePhilosophyKeywords : List String :=
  ["purpose", "soul", "spiritual", "deeper", "consciousness", "meaning of life", "reflect"]

/-- Python `sum(2 if keyword in message_lower else 0 for keyword in keywords)`
(lines 371-373). -/
def weightedScore (messageLower : String) (keywords : List String) : Nat :=
  (keywords.map (fun k => if strContains messageLower k then 2 else 0)).sum

/-- Python `AgentChainManager.route_to_best_agent` (lines 359-416).  The best agent is
the first key of the dict `{"seed": practice, "tree": wisdom, "sky": philosophy}`
attaining the maximal score, as Python `max(scores, key=scores.get)` returns. -/
def routeToBestAgent (studentMessage : String) : AgentTransitionResult :=
  let messageLower := strLower studentMessage
  let practiceScore0 := weightedScore messageLower routePracticeKeywords
  let wisdomScore0 := weightedScore messageLower routeWisdomKeywords
  let philosophyScore0 := weightedScore messageLower routePhilosophyKeywords
  -- question-type analysis (lines 376-381), an elif chain
  let practiceScore :=
    if strStarts messageLower "how" then practiceScore0 + 3 else practiceScore0
  let wisdomScore :=
    if ¬ strStarts messageLower "how" ∧ strStarts messageLower "why" then
      wisdomScore0 + 3
    else wisdomScore0
  let philosophyScore :=
    if ¬ strStarts messageLower "how" ∧ ¬ strStarts messageLower "why" ∧
        strStarts messageLower "what" ∧
        (strContains messageLower "meaning" ∨ strContains messageLower "purpose") then
      philosophyScore0 + 3
    else philosophyScore0
  let bestAgent :=
    if practiceScore ≥ wisdomScore ∧ practiceScore ≥ philosophyScore then "seed"
    else if wisdomScore ≥ philosophyScore then "tree"
    else "sky"
  let bestScore := max practiceScore (max wisdomScore philosophyScore)
  if bestScore = 0 then
    { shouldTransition := true
      recommendedAgent := "seed"
      confidence := 0.5
      reason := "Default routing to seed agent for general guidance"
      practiceScore := practiceScore
      wisdomScore := wisdomScore
      philosophyScore := philosophyScore }
  else
    { shouldTransition := true
      recommendedAgent := bestAgent
      confidence := min ((bestScore : ℚ) / 6) 1
      reason := "Routed to " ++ bestAgent ++ " agent based on message analysis (score: "
        ++ toString bestScore ++ ")"
      practiceScore := practiceScore
      wisdomScore := wisdomScore
      philosophyScore := philosophyScore }

/-! ## Data model of `base_agent.py` -/

/-- One persona agent: its type string, personality descriptor dict, system
prompt and fixed fallback string.  The personality dicts and fallback strings
are the literal values from `SeedAgent`, `TreeAgent` and `SkyAgent`; the long
pedagogical prose of the three system prompts is abbreviated to its opening
sentence (it is only ever embedded into the generated prompt text, which no
claim inspects). -/
structure PersonaAgent where
  agentType : String
  studentId : String
  personality : List (String × String)
  systemPrompt : String
  fallbackResponse : String
deriving DecidableEq

/-- Python `SeedAgent._get_fallback_response` (lines 256-263). -/
def seedFallback : String :=
  "I apologize for the technical difficulty. Let\x27s practice this step by step! "
  ++ "I\x27m here to guide you through the process as your dedicated Practice Mentor.\n\n"
  ++ "Think of me as your personal trainer for learning - I believe that wisdom comes "
  ++ "alive through action and repetition. I\x27ll help you break down any concept into "
  ++ "practical steps you can actually do, whether you want to develop a new habit, "
  ++ "practice a skill, or apply what you\x27ve learned in real situations.\n\n"
  ++ "What specific skill would you like to work on right now? I can help you create a "
  ++ "practice plan, suggest exercises, or guide you through techniques that will make "
  ++ "your learning stick. Remember, every master was once a beginner who never gave up "
  ++ "practicing!\n\nLet\x27s turn your knowledge into action together!"

/-- Python `SeedAgent` (lines 216-263). -/
def seedAgent (studentId : String) : PersonaAgent :=
  { agentType := "seed"
    studentId := studentId
    personality :=
      [ ("role", "Practice/Drill Mentor"),
        ("tone", "encouraging, practical, action-oriented"),
        ("language_style", "clear instructions, step-by-step guidance, actionable advice"),
        ("approach", "hands-on practice, repetition with variation, skill building"),
        ("error_handling", "constructive feedback with immediate practice opportunities"),
        ("metaphors", "training, exercise, building strength, developing skills"),
        ("focus", "application, practice, skill development, habit formation") ]
    systemPrompt := "You are a Seed Agent - the Practice/Drill Mentor in the Akash "
      ++ "Gurukul learning system."
    fallbackResponse := seedFallback }

/-- Python `TreeAgent` (lines 266-307). -/
def treeAgent (studentId : String) : PersonaAgent :=
  { agentType := "tree"
    studentId := studentId
    personality :=
      [ ("role", "Wisdom Agent (Conceptual Teacher)"),
        ("tone", "wise, systematic, illuminating"),
        ("language_style", "clear explanations, rich examples, conceptual frameworks"),
        ("approach", "deep understanding, concept mapping, wisdom transmission"),
        ("error_handling", "clarifying misconceptions with deeper insight"),
        ("metaphors", "roots of knowledge, branches of understanding, wisdom trees"),
        ("focus", "concepts, principles, understanding, wisdom, connections") ]
    systemPrompt := "You are a Tree Agent - the Wisdom Agent (Conceptual Teacher) in "
      ++ "the Akash Gurukul learning system."
    fallbackResponse := "I apologize for the technical difficulty. Let me illuminate "
      ++ "this concept for you. Understanding comes when we see the deeper connections. "
      ++ "What aspect would you like me to explore more deeply?" }

/-- Python `SkyAgent` (lines 310-352). -/
def skyAgent (studentId : String) : PersonaAgent :=
  { agentType := "sky"
    studentId := studentId
    personality :=
      [ ("role", "Philosophical/Introspective Guru"),
        ("tone", "profound, contemplative, transcendent"),
        ("language_style", "poetic, metaphorical, thought-provoking questions"),
        ("approach", "Socratic inquiry, self-reflection, philosophical exploration"),
        ("error_handling", "reframe as opportunities for deeper self-discovery"),
        ("metaphors", "infinite sky, cosmic consciousness, inner light, eternal wisdom"),
        ("focus", "meaning, purpose, self-discovery, transcendence, inner wisdom") ]
    systemPrompt := "You are a Sky Agent - the Philosophical/Introspective Guru in the "
      ++ "Akash Gurukul learning system."
    fallbackResponse := "I apologize for the temporary disruption in our connection. "
      ++ "In the silence between thoughts, wisdom speaks. What question is your soul "
      ++ "asking today? Let us explore this mystery together." }

/-- Python `create_agent` (lines 356-365): the factory lowercases its argument and
raises `ValueError` (modelled as `Except.error`) for any unknown type. -/
def createAgent (agentType : String) (studentId : String) : Except String PersonaAgent :=
  if strLower agentType = "seed" then Except.ok (seedAgent studentId)
  else if strLower agentType = "tree" then Except.ok (treeAgent studentId)
  else if strLower agentType = "sky" then Except.ok (skyAgent studentId)
  else Except.error ("Unknown agent type: " ++ agentType)

/-- The context fields of the merged memory/caller context that `respond` and
its helpers actually read: the recent conversation message contents, the
current lesson title and objectives (empty string / list when absent), the
retrieved memory snippets, and the interaction count. -/
structure RespondContext where
  recentConversation : List String := []
  lessonTitle : String := ""
  lessonObjectives : List String := []
  relevantMemories : List String := []
  totalInteractions : Nat := 0
deriving DecidableEq

/-- Python `BaseAgent._should_use_fallback` (lines 165-179). -/
def shouldUseFallback (userInput : String) (ctx : RespondContext) : Bool :=
  (decide (ctx.recentConversation.length ≥ 4) &&
    decide ((lastN ctx.recentConversation 4).dedup.length ≤ 2)) ||
  decide ((strTrim userInput).length < 3)

/-- Python `BaseAgent._is_response_valid` (lines 181-190). -/
def isResponseValid (response userInput : String) : Bool :=
  if (strTrim response).length < 10 then false
  else if strContains (strLower response) (strLower userInput) ∧
      response.length < userInput.length * 2 then false
  else true

/-- Python `BaseAgent._get_contextual_fallback` (lines 192-200): the fixed fallback,
augmented with a pointer to the current lesson when a title is known. -/
def PersonaAgent.getContextualFallback (agent : PersonaAgent)
    (lessonTitle : String) : String :=
  if lessonTitle ≠ "" then
    agent.fallbackResponse ++ " Let\x27s focus on our current lesson: \x27" ++ lessonTitle
      ++ "\x27. What specific aspect would you like to explore?"
  else agent.fallbackResponse

/-- Python `BaseAgent._format_conversation_history` (lines 141-151). -/
def formatConversationHistory (history : List String) : String :=
  if history = [] then "No recent conversation history."
  else
    let formatted := (lastN history 4).map (fun m => "- " ++ m)
    if formatted = [] then "No recent conversation history."
    else String.intercalate "\n" formatted

/-- Python `BaseAgent._format_memories` (lines 153-163). -/
def formatMemories (memories : List String) : String :=
  if memories = [] then "No relevant memories found."
  else
    String.intercalate "\n" ((memories.take 3).map (fun m =>
      "- " ++ (if m.length > 100 then (m.take 100) ++ "..." else m)))

/-- Python `BaseAgent._create_enhanced_prompt` (lines 92-139), with the personality
dict rendered as `key: value` lines in place of `json.dumps` and the fixed
guardrail prose abbreviated; no claim inspects the prompt text. -/
def createEnhancedPrompt (agent : PersonaAgent) (userInput : String)
    (ctx : RespondContext) : String :=
  let role := (alistGet agent.personality "role").getD (agent.agentType ++ " agent")
  "\n" ++ agent.systemPrompt
  ++ "\n\nAGENT PERSONALITY & ROLE:\n"
  ++ String.intercalate "\n" (agent.personality.map (fun kv => kv.1 ++ ": " ++ kv.2))
  ++ "\n\nCURRENT LEARNING CONTEXT:\n- Lesson Topic: "
  ++ (if ctx.lessonTitle ≠ "" then ctx.lessonTitle else "General Learning")
  ++ "\n- Learning Objectives: "
  ++ (if ctx.lessonObjectives ≠ [] then String.intercalate ", " ctx.lessonObjectives
      else "General exploration")
  ++ "\n- Agent Role: " ++ role
  ++ "\n\nSTUDENT CONTEXT:\n- Total interactions: " ++ toString ctx.totalInteractions
  ++ "\n- Recent progress: " ++ toString ctx.relevantMemories.length
  ++ " relevant memories found"
  ++ "\n\nRECENT CONVERSATION:\n" ++ formatConversationHistory ctx.recentConversation
  ++ "\n\nRELEVANT MEMORIES:\n" ++ formatMemories ctx.relevantMemories
  ++ "\n\nGUARDRAILS: stay focused on the lesson topic and your agent role."
  ++ "\n\nSTUDENT INPUT: " ++ userInput
  ++ "\n\nRESPONSE (as " ++ role ++ "):\n"

/-- Python `BaseAgent.respond` (lines 59-90).  The external text generator is the
parameter `gen`; `Except.error` models a raised generator exception.  The
whole body runs inside `try`, whose `except` arm returns the fixed fallback,
so `respond` itself always returns a string (never raises).  The memory write
on the success path mutates only the agent memory system, which no claim
observes. -/
def PersonaAgent.respond (agent : PersonaAgent) (gen : String → Except String String)
    (userInput : String) (ctx : RespondContext) : String :=
  if shouldUseFallback userInput ctx then
    agent.getContextualFallback ctx.lessonTitle
  else
    match gen (createEnhancedPrompt agent userInput ctx) with
    | Except.error _ => agent.fallbackResponse
    | Except.ok response =>
      let responseText := strTrim response
      if isResponseValid responseText userInput then responseText
      else agent.getContextualFallback ctx.lessonTitle

/-! ## The chain-state effect of one chat call (`backend/main.py` lines 165-190) -/

/-- The chain-store effect of one `interact_with_agent` call: a transition
suggestion is computed first (creating the chain when absent), the agent
responds, and the exchange is recorded with a `response_length` insight. -/
def chatStep (agentType userInput agentResponse studentId : String)
    (lessonId : Option String) (store : ChainStore) : ChainStore :=
  let store1 := (suggestAgentTransition agentType userInput studentId lessonId store).2
  recordAgentInteraction agentType userInput agentResponse studentId lessonId
    [("response_length", toString agentResponse.length)] store1

/-- Runs `N` sequential chat calls for the same (student, lesson) pair; each list
entry is one call's `(agent_type, user_input, agent_response)`. -/
def runChats (studentId : String) (lessonId : Option String)
    (calls : List (String × String × String)) (store : ChainStore) : ChainStore :=
  match calls with
  | [] => store
  | (a, u, r) :: rest =>
    runChats studentId lessonId rest (chatStep a u r studentId lessonId store)

/-! ## Helper lemmas -/

theorem sum_map_ite_const (p : α → Bool) (c : Nat) (l : List α) :
    (l.map (fun a => if p a then c else 0)).sum = c * (l.filter p).length := by
  induction l with
  | nil => simp
  | cons a l ih =>
    simp only [List.map_cons, List.sum_cons, List.filter_cons]
    by_cases h : p a
    · simp only [if_pos h, ih, List.length_cons]
      ring
    · simp only [if_neg h, ih]
      omega

theorem alistGet_alistSet_self [DecidableEq κ] (l : List (κ × α)) (k : κ) (v : α) :
    alistGet (alistSet l k v) k = some v := by
  induction l with
  | nil => simp [alistGet, alistSet]
  | cons kv rest ih =>
    by_cases h : kv.1 = k
    · simp [alistSet, alistGet, h]
    · simp [alistSet, alistGet, h, ih]

theorem alistGet_alistSet_ne [DecidableEq κ] (l : List (κ × α)) (k k' : κ) (v : α)
    (h : k ≠ k') : alistGet (alistSet l k v) k' = alistGet l k' := by
  induction l with
  | nil => simp [alistGet, alistSet, h]
  | cons kv rest ih =>
    by_cases hk : kv.1 = k
    · simp [alistSet, alistGet, hk, h]
    · simp only [alistSet, if_neg hk]
      by_cases hk' : kv.1 = k'
      · simp [alistGet, hk']
      · simp [alistGet, hk', ih]

/-! ## C1: the transition-rule confidence formula -/

/-- C1: for every transition rule, user text and conversation context,
`should_transition` evaluates to confidence
`0.7·triggerScore + 0.3·contextScore`, where `triggerScore` is the fraction of
the rule's trigger keywords occurring as substrings of the lowercased user
text, `contextScore` adds 0.3 when the from-persona has at least three
recorded insights and 0.2 when unresolved questions exist, and the transition
flag is set exactly when the confidence reaches the rule's own threshold. -/
theorem transition_rule_confidence_spec (rule : AgentTransitionRule)
    (userInput : String) (context : AgentChainContext) :
    (rule.shouldTransitionEval userInput context).2 =
      0.7 * (((rule.triggers.filter (fun t => strContains (strLower userInput) t)).length : ℚ)
              / (rule.triggers.length : ℚ))
      + 0.3 * ((if 3 ≤ ((alistGet context.agentInsights rule.fromAgent.val).getD []).length
                then (0.3 : ℚ) else 0)
               + (if context.unresolvedQuestions ≠ [] then (0.2 : ℚ) else 0)) ∧
    ((rule.shouldTransitionEval userInput context).1 = true ↔
      rule.confidenceThreshold ≤ (rule.shouldTransitionEval userInput context).2) := by
  constructor
  · show (rule.triggerConfidence userInput * 0.7 + rule.contextScore context * 0.3) = _
    have htrig : rule.triggerConfidence userInput =
        (((rule.triggers.filter (fun t => strContains (strLower userInput) t)).length : ℚ)
          / (rule.triggers.length : ℚ)) := by
      unfold AgentTransitionRule.triggerConfidence
      simp only [sum_map_ite_const, one_mul]
      by_cases h : rule.triggers = []
      · simp [h]
      · rw [if_pos h]
    have hctx : rule.contextScore context =
        ((if 3 ≤ ((alistGet context.agentInsights rule.fromAgent.val).getD []).length
          then (0.3 : ℚ) else 0)
         + (if context.unresolvedQuestions ≠ [] then (0.2 : ℚ) else 0)) := by
      unfold AgentTransitionRule.contextScore
      cases h : alistGet context.agentInsights rule.fromAgent.val with
      | none => simp [h]
      | some l => simp [h, ge_iff_le]
    rw [htrig, hctx]
    ring
  · show decide (rule.confidenceThreshold ≤ _) = true ↔ _
    simp only [decide_eq_true_eq]
    exact Iff.rfl

/-! ## C6: all produced confidences lie in [0, 1] -/

theorem triggerConfidence_nonneg (rule : AgentTransitionRule) (userInput : String) :
    0 ≤ rule.triggerConfidence userInput := by
  unfold AgentTransitionRule.triggerConfidence
  by_cases h : rule.triggers = []
  · simp [h]
  · simp only [if_pos h]
    positivity

theorem triggerConfidence_le_one (rule : AgentTransitionRule) (userInput : String) :
    rule.triggerConfidence userInput ≤ 1 := by
  unfold AgentTransitionRule.triggerConfidence
  simp only [sum_map_ite_const, one_mul]
  by_cases h : rule.triggers = []
  · simp [h]
  · rw [if_pos h]
    have hlen : 0 < rule.triggers.length := List.length_pos.mpr h
    rw [div_le_one (by exact_mod_cast hlen)]
    exact_mod_cast List.length_filter_le _ _

theorem contextScore_nonneg (rule : AgentTransitionRule) (context : AgentChainContext) :
    0 ≤ rule.contextScore context := by
  unfold AgentTransitionRule.contextScore
  cases h : alistGet context.agentInsights rule.fromAgent.val with
  | none => simp only [h]; split <;> norm_num
  | some l => simp only [h]; split <;> split <;> norm_num

theorem contextScore_le_half (rule : AgentTransitionRule) (context : AgentChainContext) :
    rule.contextScore context ≤ 0.5 := by
  unfold AgentTransitionRule.contextScore
  cases h : alistGet context.agentInsights rule.fromAgent.val with
  | none => simp only [h]; split <;> norm_num
  | some l => simp only [h]; split <;> split <;> norm_num

theorem shouldTransitionEval_nonneg (rule : AgentTransitionRule) (userInput : String)
    (context : AgentChainContext) : 0 ≤ (rule.shouldTransitionEval userInput context).2 := by
  show 0 ≤ rule.triggerConfidence userInput * 0.7 + rule.contextScore context * 0.3
  have h1 := triggerConfidence_nonneg rule userInput
  have h2 := contextScore_nonneg rule context
  nlinarith

theorem shouldTransitionEval_le_one (rule : AgentTransitionRule) (userInput : String)
    (context : AgentChainContext) : (rule.shouldTransitionEval userInput context).2 ≤ 1 := by
  show rule.triggerConfidence userInput * 0.7 + rule.contextScore context * 0.3 ≤ 1
  have h1 := triggerConfidence_le_one rule userInput
  have h2 := contextScore_le_half rule context
  have h3 := triggerConfidence_nonneg rule userInput
  have h4 := contextScore_nonneg rule context
  nlinarith

/-- Full characterization of the rule-scanning loop: either no scanned rule
from the current persona clears its threshold with confidence strictly above
the accumulator, and the accumulator is returned unchanged; or the rules split
around a winning rule that clears its threshold, beats the accumulator, beats
every earlier clearing rule strictly and every later clearing rule weakly. -/
theorem scanRules_spec (current : AgentType) (userInput : String)
    (context : AgentChainContext) :
    ∀ (rules : List AgentTransitionRule) (best : Option AgentTransitionRule) (bestConf : ℚ),
      ((∀ r ∈ rules, r.fromAgent = current →
          (r.shouldTransitionEval userInput context).1 = true →
          (r.shouldTransitionEval userInput context).2 ≤ bestConf) ∧
        scanRules current userInput context rules best bestConf = (best, bestConf)) ∨
      (∃ l₁ r l₂, rules = l₁ ++ r :: l₂ ∧
        r.fromAgent = current ∧
        (r.shouldTransitionEval userInput context).1 = true ∧
        bestConf < (r.shouldTransitionEval userInput context).2 ∧
        scanRules current userInput context rules best bestConf =
          (some r, (r.shouldTransitionEval userInput context).2) ∧
        (∀ r' ∈ l₁, r'.fromAgent = current →
          (r'.shouldTransitionEval userInput context).1 = true →
          (r'.shouldTransitionEval userInput context).2 <
            (r.shouldTransitionEval userInput context).2) ∧
        (∀ r' ∈ l₂, r'.fromAgent = current →
          (r'.shouldTransitionEval userInput context).1 = true →
          (r'.shouldTransitionEval userInput context).2 ≤
            (r.shouldTransitionEval userInput context).2)) := by
  intro rules
  induction rules with
  | nil =>
    intro best bestConf
    left
    exact ⟨by simp, rfl⟩
  | cons rule rest ih =>
    intro best bestConf
    by_cases hfrom : rule.fromAgent = current
    · by_cases hupd : (rule.shouldTransitionEval userInput context).1 = true ∧
          bestConf < (rule.shouldTransitionEval userInput context).2
      · have hscan : scanRules current userInput context (rule :: rest) best bestConf =
            scanRules current userInput context rest (some rule)
              (rule.shouldTransitionEval userInput context).2 := by
          simp only [scanRules, if_pos hfrom, if_pos hupd]
        rcases ih (some rule) (rule.shouldTransitionEval userInput context).2 with
          ⟨hall, heq⟩ | ⟨l₁, r, l₂, hsplit, hf, hst, hlt, heq, hbefore, hafter⟩
        · right
          refine ⟨[], rule, rest, rfl, hfrom, hupd.1, hupd.2, ?_, by simp, hall⟩
          rw [hscan, heq]
        · right
          refine ⟨rule :: l₁, r, l₂, by simp [hsplit], hf, hst,
            lt_trans hupd.2 hlt, by rw [hscan, heq], ?_, hafter⟩
          intro r' hr' hfrom' hst'
          rcases List.mem_cons.mp hr' with h | h
          · subst h; exact hlt
          · exact hbefore r' h hfrom' hst'
      · have hscan : scanRules current userInput context (rule :: rest) best bestConf =
            scanRules current userInput context rest best bestConf := by
          simp only [scanRules, if_pos hfrom, if_neg hupd]
        rcases ih best bestConf with
          ⟨hall, heq⟩ | ⟨l₁, r, l₂, hsplit, hf, hst, hlt, heq, hbefore, hafter⟩
        · left
          refine ⟨?_, by rw [hscan]; exact heq⟩
          intro r' hr' hfrom' hst'
          rcases List.mem_cons.mp hr' with h | h
          · subst h
            exact le_of_not_lt (fun hgt => hupd ⟨hst', hgt⟩)
          · exact hall r' h hfrom' hst'
        · right
          refine ⟨rule :: l₁, r, l₂, by simp [hsplit], hf, hst, hlt,
            by rw [hscan, heq], ?_, hafter⟩
          intro r' hr' hfrom' hst'
          rcases List.mem_cons.mp hr' with h | h
          · subst h
            have hle : (r'.shouldTransitionEval userInput context).2 ≤ bestConf :=
              le_of_not_lt (fun hgt => hupd ⟨hst', hgt⟩)
            exact lt_of_le_of_lt hle hlt
          · exact hbefore r' h hfrom' hst'
    · have hscan : scanRules current userInput context (rule :: rest) best bestConf =
          scanRules current userInput context rest best bestConf := by
        simp only [scanRules, if_neg hfrom]
      rcases ih best bestConf with
        ⟨hall, heq⟩ | ⟨l₁, r, l₂, hsplit, hf, hst, hlt, heq, hbefore, hafter⟩
      · left
        refine ⟨?_, by rw [hscan]; exact heq⟩
        intro r' hr' hfrom' hst'
        rcases List.mem_cons.mp hr' with h | h
        · subst h; exact absurd hfrom' hfrom
        · exact hall r' h hfrom' hst'
      · right
        refine ⟨rule :: l₁, r, l₂, by simp [hsplit], hf, hst, hlt,
          by rw [hscan, heq], ?_, hafter⟩
        intro r' hr' hfrom' hst'
        rcases List.mem_cons.mp hr' with h | h
        · subst h; exact absurd hfrom' hfrom
        · exact hbefore r' h hfrom' hst'

theorem shouldTransitionEval_fst_iff (rule : AgentTransitionRule) (userInput : String)
    (context : AgentChainContext) :
    (rule.shouldTransitionEval userInput context).1 = true ↔
      rule.confidenceThreshold ≤ (rule.shouldTransitionEval userInput context).2 := by
  show decide (rule.confidenceThreshold ≤ _) = true ↔ _
  simp only [decide_eq_true_eq]
  exact Iff.rfl

/-- Every static rule's threshold is at least 0.6. -/
theorem transitionRules_threshold_ge (r : AgentTransitionRule)
    (hr : r ∈ transitionRules) : 0.6 ≤ r.confidenceThreshold := by
  fin_cases hr <;> norm_num

/-! ## C2: the in-conversation suggestion picks the best clearing rule -/

/-- C2: the suggestion considers exactly the static rules whose from-persona
is the current persona.  When none of them clears its own threshold, the
decision is to stay: `should_transition = false`, the current persona
recommended, confidence 1.0, reason "no strong transition signal".  Otherwise
the static rule list splits around a winning rule that clears its threshold,
whose target persona and confidence are returned with
`should_transition = true`; the winner's confidence is maximal among all
clearing rules, and strictly above every clearing rule declared earlier
(so ties favor the first-declared rule). -/
theorem suggest_transition_selects_best (current : AgentType) (userInput : String)
    (context : AgentChainContext) :
    ((¬ ∃ r ∈ transitionRules, r.fromAgent = current ∧
        (r.shouldTransitionEval userInput context).1 = true) →
      suggestFromContext current userInput context =
        { shouldTransition := false, recommendedAgent := current.val, confidence := 1,
          reason := "No strong transition signals detected" }) ∧
    ((∃ r ∈ transitionRules, r.fromAgent = current ∧
        (r.shouldTransitionEval userInput context).1 = true) →
      ∃ l₁ r l₂, transitionRules = l₁ ++ r :: l₂ ∧ r.fromAgent = current ∧
        (r.shouldTransitionEval userInput context).1 = true ∧
        (suggestFromContext current userInput context).shouldTransition = true ∧
        (suggestFromContext current userInput context).recommendedAgent = r.toAgent.val ∧
        (suggestFromContext current userInput context).confidence =
          (r.shouldTransitionEval userInput context).2 ∧
        (∀ r' ∈ transitionRules, r'.fromAgent = current →
          (r'.shouldTransitionEval userInput context).1 = true →
          (r'.shouldTransitionEval userInput context).2 ≤
            (r.shouldTransitionEval userInput context).2) ∧
        (∀ r' ∈ l₁, r'.fromAgent = current →
          (r'.shouldTransitionEval userInput context).1 = true →
          (r'.shouldTransitionEval userInput context).2 <
            (r.shouldTransitionEval userInput context).2)) := by
  rcases scanRules_spec current userInput context transitionRules none 0 with
    ⟨hall, heq⟩ | ⟨l₁, r, l₂, hsplit, hf, hst, hlt, heq, hbefore, hafter⟩
  · constructor
    · intro _
      unfold suggestFromContext
      rw [heq]
    · intro ⟨r, hr, hfrom, hst⟩
      exfalso
      have hle0 : (r.shouldTransitionEval userInput context).2 ≤ 0 :=
        hall r hr hfrom hst
      have hthr : r.confidenceThreshold ≤ (r.shouldTransitionEval userInput context).2 :=
        (shouldTransitionEval_fst_iff r userInput context).mp hst
      have := transitionRules_threshold_ge r hr
      linarith
  · have hmem : r ∈ transitionRules := by
      rw [hsplit]; exact List.mem_append_right _ (List.mem_cons_self _ _)
    constructor
    · intro hno
      exact absurd ⟨r, hmem, hf, hst⟩ hno
    · intro _
      have hsug : suggestFromContext current userInput context =
          { shouldTransition := true
            recommendedAgent := r.toAgent.val
            confidence := (r.shouldTransitionEval userInput context).2
            reason := "Detected transition triggers: " ++ pyStrList r.triggers
            transitionContext :=
              some (prepareTransitionContext context current.val r.toAgent.val) } := by
        unfold suggestFromContext
        rw [heq]
      refine ⟨l₁, r, l₂, hsplit, hf, hst, by rw [hsug], by rw [hsug], by rw [hsug], ?_, hbefore⟩
      intro r' hr' hfrom' hst'
      rw [hsplit] at hr'
      rcases List.mem_append.mp hr' with h | h
      · exact le_of_lt (hbefore r' h hfrom' hst')
      · rcases List.mem_cons.mp h with h | h
        · subst h; exact le_refl _
        · exact hafter r' h hfrom' hst'

/-- Evaluating a trigger-confidence from a computed match count. -/
theorem triggerConfidence_eq_of_sum (rule : AgentTransitionRule) (userInput : String)
    (k : Nat)
    (h : (rule.triggers.map
        (fun t => if strContains (strLower userInput) t then (1 : Nat) else 0)).sum = k)
    (hne : rule.triggers ≠ []) :
    rule.triggerConfidence userInput = (k : ℚ) / (rule.triggers.length : ℚ) := by
  unfold AgentTransitionRule.triggerConfidence
  rw [if_pos hne, h]

/-- The context score of a fresh chain context is zero. -/
theorem contextScore_newChainContext (rule : AgentTransitionRule)
    (studentId : String) (lessonId : Option String) :
    rule.contextScore (newChainContext studentId lessonId) = 0 := by
  unfold AgentTransitionRule.contextScore newChainContext
  simp [alistGet]

/-- Witness for C2: from the Practice (seed) persona, an input containing all
seven seed-to-tree triggers makes that rule clear its 0.6 threshold and win. -/
theorem suggest_transition_selects_best_witness :
    ∃ l₁ r l₂, transitionRules = l₁ ++ r :: l₂ ∧ r.fromAgent = AgentType.seed ∧
      (r.shouldTransitionEval "why explain understand principle concept theory because"
        (newChainContext "s1" none)).1 = true ∧
      (suggestFromContext AgentType.seed
        "why explain understand principle concept theory because"
        (newChainContext "s1" none)).shouldTransition = true ∧
      (suggestFromContext AgentType.seed
        "why explain understand principle concept theory because"
        (newChainContext "s1" none)).recommendedAgent = r.toAgent.val ∧
      (suggestFromContext AgentType.seed
        "why explain understand principle concept theory because"
        (newChainContext "s1" none)).confidence =
        (r.shouldTransitionEval "why explain understand principle concept theory because"
          (newChainContext "s1" none)).2 ∧
      (∀ r' ∈ transitionRules, r'.fromAgent = AgentType.seed →
        (r'.shouldTransitionEval "why explain understand principle concept theory because"
          (newChainContext "s1" none)).1 = true →
        (r'.shouldTransitionEval "why explain understand principle concept theory because"
          (newChainContext "s1" none)).2 ≤
          (r.shouldTransitionEval "why explain understand principle concept theory because"
            (newChainContext "s1" none)).2) ∧
      (∀ r' ∈ l₁, r'.fromAgent = AgentType.seed →
        (r'.shouldTransitionEval "why explain understand principle concept theory because"
          (newChainContext "s1" none)).1 = true →
        (r'.shouldTransitionEval "why explain understand principle concept theory because"
          (newChainContext "s1" none)).2 <
          (r.shouldTransitionEval "why explain understand principle concept theory because"
            (newChainContext "s1" none)).2) := by
  apply (suggest_transition_selects_best AgentType.seed
    "why explain understand principle concept theory because" (newChainContext "s1" none)).2
  refine ⟨⟨AgentType.seed, AgentType.tree,
      ["why", "explain", "understand", "principle", "concept", "theory", "because"],
      ["practice_attempts", "skill_questions", "conceptual_gaps"], 0.6⟩, ?_, rfl, ?_⟩
  · simp [transitionRules]
  · rw [shouldTransitionEval_fst_iff]
    show (0.6 : ℚ) ≤ _
    show (0.6 : ℚ) ≤ _ * 0.7 + _ * 0.3
    rw [triggerConfidence_eq_of_sum _ _ 7 (by rfl) (by simp),
      contextScore_newChainContext]
    norm_num

/-- C6: trigger scores lie in [0,1], and every confidence the routing core
produces — rule evaluation, the stay decision, and cold-start routing with
its default — lies in [0,1]. -/
theorem routing_confidence_bounds :
    (∀ (rule : AgentTransitionRule) (userInput : String) (context : AgentChainContext),
      0 ≤ rule.triggerConfidence userInput ∧ rule.triggerConfidence userInput ≤ 1 ∧
      0 ≤ (rule.shouldTransitionEval userInput context).2 ∧
      (rule.shouldTransitionEval userInput context).2 ≤ 1) ∧
    (∀ (current : AgentType) (userInput : String) (context : AgentChainContext),
      0 ≤ (suggestFromContext current userInput context).confidence ∧
      (suggestFromContext current userInput context).confidence ≤ 1) ∧
    (∀ msg : String,
      0 ≤ (routeToBestAgent msg).confidence ∧ (routeToBestAgent msg).confidence ≤ 1) := by
  refine ⟨fun rule userInput context => ⟨triggerConfidence_nonneg rule userInput,
    triggerConfidence_le_one rule userInput,
    shouldTransitionEval_nonneg rule userInput context,
    shouldTransitionEval_le_one rule userInput context⟩, ?_, ?_⟩
  · intro current userInput context
    rcases scanRules_spec current userInput context transitionRules none 0 with
      ⟨_, heq⟩ | ⟨_, r, _, _, _, _, _, heq, _, _⟩
    · unfold suggestFromContext
      rw [heq]
      norm_num
    · unfold suggestFromContext
      rw [heq]
      exact ⟨shouldTransitionEval_nonneg r userInput context,
        shouldTransitionEval_le_one r userInput context⟩
  · intro msg
    have hshape : (routeToBestAgent msg).confidence = 0.5 ∨
        ∃ n : Nat, (routeToBestAgent msg).confidence = min ((n : ℚ) / 6) 1 := by
      simp only [routeToBestAgent]
      repeat' split
      all_goals first
        | (left; rfl)
        | (right; exact ⟨_, rfl⟩)
    rcases hshape with h | ⟨n, h⟩
    · rw [h]; norm_num
    · rw [h]
      constructor
      · apply le_min (by positivity) zero_le_one
      · exact min_le_right _ _

/-! ## C3: cold-start routing -/

theorem strStarts_false_of_both {s : String} (p q : String)
    (hpq : ¬ (p.data <+: q.data)) (hqp : ¬ (q.data <+: p.data))
    (h1 : strStarts s p = true) (h2 : strStarts s q = true) : False := by
  have h1' : p.data <+: s.data := of_decide_eq_true h1
  have h2' : q.data <+: s.data := of_decide_eq_true h2
  rcases List.prefix_or_prefix_of_prefix h1' h2' with h | h
  · exact hpq h
  · exact hqp h

theorem bool_eq_false {b : Bool} (h : ¬ b = true) : b = false := by
  cases b
  · rfl
  · exact absurd rfl h

/-- C3: cold-start routing always transitions; its three scores weight each
matched keyword by 2 plus the question-type bonus (+3 to practice for a
"how"-initial text, +3 to concept for "why"-initial, +3 to reflection for a
"what"-initial text containing "meaning" or "purpose"); an all-zero score
defaults to the Practice (seed) persona with confidence 0.5 and the default
reason, and otherwise a highest-scoring category is recommended with
confidence `min(score/6, 1)`. -/
theorem route_to_best_agent_spec (msg : String) (p w f : Nat)
    (hp : p = 2 * (routePracticeKeywords.filter
        (fun k => strContains (strLower msg) k)).length
      + (if strStarts (strLower msg) "how" = true then 3 else 0))
    (hw : w = 2 * (routeWisdomKeywords.filter
        (fun k => strContains (strLower msg) k)).length
      + (if strStarts (strLower msg) "why" = true then 3 else 0))
    (hf : f = 2 * (routePhilosophyKeywords.filter
        (fun k => strContains (strLower msg) k)).length
      + (if strStarts (strLower msg) "what" = true ∧
            (strContains (strLower msg) "meaning" = true ∨
             strContains (strLower msg) "purpose" = true) then 3 else 0)) :
    (routeToBestAgent msg).shouldTransition = true ∧
    (routeToBestAgent msg).practiceScore = p ∧
    (routeToBestAgent msg).wisdomScore = w ∧
    (routeToBestAgent msg).philosophyScore = f ∧
    ((p = 0 ∧ w = 0 ∧ f = 0) →
      (routeToBestAgent msg).recommendedAgent = "seed" ∧
      (routeToBestAgent msg).confidence = 0.5 ∧
      (routeToBestAgent msg).reason =
        "Default routing to seed agent for general guidance") ∧
    (¬ (p = 0 ∧ w = 0 ∧ f = 0) →
      (routeToBestAgent msg).confidence = min (((max p (max w f) : Nat) : ℚ) / 6) 1 ∧
      (((routeToBestAgent msg).recommendedAgent = "seed" ∧ max p (max w f) = p) ∨
       ((routeToBestAgent msg).recommendedAgent = "tree" ∧ max p (max w f) = w) ∨
       ((routeToBestAgent msg).recommendedAgent = "sky" ∧ max p (max w f) = f))) := by
  have hws : ∀ kws : List String, weightedScore (strLower msg) kws =
      2 * (kws.filter (fun k => strContains (strLower msg) k)).length := by
    intro kws
    unfold weightedScore
    exact sum_map_ite_const _ 2 kws
  -- bridge the claim-side bonus conditions to the source's elif chain,
  -- using that no two of the prefixes "how", "why", "what" can hold at once
  have hpc : (if strStarts (strLower msg) "how" = true
      then weightedScore (strLower msg) routePracticeKeywords + 3
      else weightedScore (strLower msg) routePracticeKeywords) = p := by
    by_cases h : strStarts (strLower msg) "how" = true
    · simp [h, hws, hp]
    · simp [h, hws, hp]
  have hwc : (if ¬ strStarts (strLower msg) "how" = true ∧
        strStarts (strLower msg) "why" = true
      then weightedScore (strLower msg) routeWisdomKeywords + 3
      else weightedScore (strLower msg) routeWisdomKeywords) = w := by
    by_cases hhow : strStarts (strLower msg) "how" = true
    · have hwhy : strStarts (strLower msg) "why" = false :=
        bool_eq_false (fun h2 =>
          strStarts_false_of_both "how" "why" (by decide) (by decide) hhow h2)
      simp [hhow, hwhy, hws, hw]
    · by_cases hwhy : strStarts (strLower msg) "why" = true
      · simp [hhow, hwhy, hws, hw]
      · simp [hhow, bool_eq_false hwhy, hws, hw]
  have hfc : (if ¬ strStarts (strLower msg) "how" = true ∧
        ¬ strStarts (strLower msg) "why" = true ∧
        strStarts (strLower msg) "what" = true ∧
        (strContains (strLower msg) "meaning" = true ∨
         strContains (strLower msg) "purpose" = true)
      then weightedScore (strLower msg) routePhilosophyKeywords + 3
      else weightedScore (strLower msg) routePhilosophyKeywords) = f := by
    by_cases hwhat : strStarts (strLower msg) "what" = true
    · have hhow : strStarts (strLower msg) "how" = false :=
        bool_eq_false (fun h1 =>
          strStarts_false_of_both "what" "how" (by decide) (by decide) hwhat h1)
      have hwhy : strStarts (strLower msg) "why" = false :=
        bool_eq_false (fun h1 =>
          strStarts_false_of_both "what" "why" (by decide) (by decide) hwhat h1)
      by_cases hm : strContains (strLower msg) "meaning" = true ∨
          strContains (strLower msg) "purpose" = true
      · simp [hwhat, hhow, hwhy, hm, hws, hf]
      · simp [hwhat, hhow, hwhy, hm, hws, hf]
    · simp [bool_eq_false hwhat, hws, hf]
  have hroute : routeToBestAgent msg =
      (if max p (max w f) = 0 then
        { shouldTransition := true, recommendedAgent := "seed", confidence := 0.5,
          reason := "Default routing to seed agent for general guidance",
          practiceScore := p, wisdomScore := w, philosophyScore := f }
      else
        { shouldTransition := true,
          recommendedAgent :=
            if p ≥ w ∧ p ≥ f then "seed" else if w ≥ f then "tree" else "sky",
          confidence := min (((max p (max w f) : Nat) : ℚ) / 6) 1,
          reason := "Routed to "
            ++ (if p ≥ w ∧ p ≥ f then "seed" else if w ≥ f then "tree" else "sky")
            ++ " agent based on message analysis (score: "
            ++ toString (max p (max w f)) ++ ")",
          practiceScore := p, wisdomScore := w, philosophyScore := f }) := by
    simp only [routeToBestAgent]
    rw [hpc, hwc, hfc]
  rw [hroute]
  by_cases h0 : max p (max w f) = 0
  · rw [if_pos h0]
    have hall : p = 0 ∧ w = 0 ∧ f = 0 := by
      have h1 := Nat.max_eq_zero_iff.mp h0
      have h2 := Nat.max_eq_zero_iff.mp h1.2
      exact ⟨h1.1, h2.1, h2.2⟩
    exact ⟨rfl, rfl, rfl, rfl, fun _ => ⟨rfl, rfl, rfl⟩, fun hcon => absurd hall hcon⟩
  · rw [if_neg h0]
    refine ⟨rfl, rfl, rfl, rfl, fun hz => ?_, fun _ => ⟨rfl, ?_⟩⟩
    · exact absurd (by simp [hz.1, hz.2.1, hz.2.2] : max p (max w f) = 0) h0
    · by_cases h1 : p ≥ w ∧ p ≥ f
      · left
        refine ⟨by rw [if_pos h1], ?_⟩
        exact max_eq_left (max_le h1.1 h1.2)
      · by_cases h2 : w ≥ f
        · right; left
          refine ⟨by rw [if_neg h1, if_pos h2], ?_⟩
          have hpw : p ≤ w := by
            rcases not_and_or.mp h1 with h | h
            · exact le_of_not_le h
            · exact le_trans (le_of_not_le h) h2
          rw [max_eq_left h2, max_eq_right hpw]
        · right; right
          refine ⟨by rw [if_neg h1, if_neg h2], ?_⟩
          have hwf : w ≤ f := le_of_not_le h2
          have hpf : p ≤ f := by
            rcases not_and_or.mp h1 with h | h
            · exact le_trans (le_of_not_le h) hwf
            · exact le_of_not_le h
          rw [max_eq_right hwf, max_eq_right hpf]

/-- Witness for C3: "How do I practice gratitude daily?" routes to the
Practice (seed) persona with four matched practice keywords plus the
"how"-prefix bonus. -/
theorem route_to_best_agent_spec_witness :
    (routeToBestAgent "How do I practice gratitude daily?").shouldTransition = true ∧
    (routeToBestAgent "How do I practice gratitude daily?").practiceScore = 11 ∧
    (routeToBestAgent "How do I practice gratitude daily?").wisdomScore = 0 ∧
    (routeToBestAgent "How do I practice gratitude daily?").philosophyScore = 0 ∧
    (((11 : Nat) = 0 ∧ (0 : Nat) = 0 ∧ (0 : Nat) = 0) →
      (routeToBestAgent "How do I practice gratitude daily?").recommendedAgent = "seed" ∧
      (routeToBestAgent "How do I practice gratitude daily?").confidence = 0.5 ∧
      (routeToBestAgent "How do I practice gratitude daily?").reason =
        "Default routing to seed agent for general guidance") ∧
    (¬ ((11 : Nat) = 0 ∧ (0 : Nat) = 0 ∧ (0 : Nat) = 0) →
      (routeToBestAgent "How do I practice gratitude daily?").confidence =
        min (((max 11 (max 0 0) : Nat) : ℚ) / 6) 1 ∧
      (((routeToBestAgent "How do I practice gratitude daily?").recommendedAgent = "seed" ∧
          max 11 (max 0 0) = 11) ∨
       ((routeToBestAgent "How do I practice gratitude daily?").recommendedAgent = "tree" ∧
          max 11 (max 0 0) = 0) ∨
       ((routeToBestAgent "How do I practice gratitude daily?").recommendedAgent = "sky" ∧
          max 11 (max 0 0) = 0))) :=
  route_to_best_agent_spec "How do I practice gratitude daily?" 11 0 0
    (by decide) (by decide) (by decide)

/-! ## C7: the suggestion is read-only and idempotent -/

theorem getOrCreateChain_preserves (store : ChainStore) (studentId : String)
    (lessonId : Option String) (k : String) (c : AgentChainContext)
    (h : alistGet store k = some c) :
    alistGet (getOrCreateChain store studentId lessonId).2 k = some c := by
  unfold getOrCreateChain
  cases hk : alistGet store (chainKey studentId lessonId) with
  | some c' => simpa [hk] using h
  | none =>
    have hne : chainKey studentId lessonId ≠ k := by
      intro he
      rw [he, h] at hk
      cases hk
    simp only [hk]
    rw [alistGet_alistSet_ne _ _ _ _ hne]
    exact h

theorem getOrCreateChain_stable (store : ChainStore) (studentId : String)
    (lessonId : Option String) :
    getOrCreateChain (getOrCreateChain store studentId lessonId).2 studentId lessonId =
      ((getOrCreateChain store studentId lessonId).1,
       (getOrCreateChain store studentId lessonId).2) := by
  unfold getOrCreateChain
  cases hk : alistGet store (chainKey studentId lessonId) with
  | some c => simp [hk]
  | none => simp [hk, alistGet_alistSet_self]

theorem suggestAgentTransition_snd (currentAgent userInput studentId : String)
    (lessonId : Option String) (store : ChainStore) :
    (suggestAgentTransition currentAgent userInput studentId lessonId store).2 =
      (getOrCreateChain store studentId lessonId).2 := by
  unfold suggestAgentTransition
  cases h : AgentType.ofString? currentAgent <;> simp [h]

/-- C7: `suggest_agent_transition` never mutates an existing chain context
(every binding present in the store before the call is unchanged after it),
and calling it twice with identical arguments and no intervening chat call
returns identical decisions. -/
theorem suggest_transition_read_only_idempotent (currentAgent userInput studentId : String)
    (lessonId : Option String) (store : ChainStore) :
    (∀ (k : String) (c : AgentChainContext), alistGet store k = some c →
      alistGet (suggestAgentTransition currentAgent userInput studentId lessonId store).2
        k = some c) ∧
    (suggestAgentTransition currentAgent userInput studentId lessonId
        ((suggestAgentTransition currentAgent userInput studentId lessonId store).2)).1 =
      (suggestAgentTransition currentAgent userInput studentId lessonId store).1 := by
  constructor
  · intro k c h
    rw [suggestAgentTransition_snd]
    exact getOrCreateChain_preserves store studentId lessonId k c h
  · rw [suggestAgentTransition_snd]
    have hstable := getOrCreateChain_stable store studentId lessonId
    unfold suggestAgentTransition
    cases h : AgentType.ofString? currentAgent <;> simp [h, hstable]

/-- Witness for C7: a store holding one chain keeps it intact, and the second
identical call returns the same decision. -/
theorem suggest_transition_read_only_idempotent_witness :
    alistGet (suggestAgentTransition "seed" "hello" "s1" none
        [("k0", newChainContext "k0" none)]).2 "k0" = some (newChainContext "k0" none) ∧
    (suggestAgentTransition "seed" "hello" "s1" none
        ((suggestAgentTransition "seed" "hello" "s1" none
          [("k0", newChainContext "k0" none)]).2)).1 =
      (suggestAgentTransition "seed" "hello" "s1" none
        [("k0", newChainContext "k0" none)]).1 :=
  ⟨(suggest_transition_read_only_idempotent "seed" "hello" "s1" none
      [("k0", newChainContext "k0" none)]).1 "k0" (newChainContext "k0" none) (by decide),
   (suggest_transition_read_only_idempotent "seed" "hello" "s1" none
      [("k0", newChainContext "k0" none)]).2⟩

/-! ## C9: unknown personas fail fast -/

/-- C9: for any persona identifier naming none of the three personas (not even
after the factory's lowercasing), both agent creation and the in-conversation
suggestion signal an invalid-argument error instead of defaulting. -/
theorem unknown_persona_fails_fast (agentType studentId userInput sid : String)
    (lessonId : Option String) (store : ChainStore)
    (h : strLower agentType ∉ (["seed", "tree", "sky"] : List String)) :
    (∃ msg, createAgent agentType studentId = Except.error msg) ∧
    (∃ msg, (suggestAgentTransition agentType userInput sid lessonId store).1 =
      Except.error msg) := by
  have h1 : strLower agentType ≠ "seed" := fun he => h (by rw [he]; simp)
  have h2 : strLower agentType ≠ "tree" := fun he => h (by rw [he]; simp)
  have h3 : strLower agentType ≠ "sky" := fun he => h (by rw [he]; simp)
  constructor
  · refine ⟨"Unknown agent type: " ++ agentType, ?_⟩
    unfold createAgent
    rw [if_neg h1, if_neg h2, if_neg h3]
  · have ho : AgentType.ofString? agentType = none := by
      have g1 : agentType ≠ "seed" := fun he => h1 (by rw [he]; decide)
      have g2 : agentType ≠ "tree" := fun he => h2 (by rw [he]; decide)
      have g3 : agentType ≠ "sky" := fun he => h3 (by rw [he]; decide)
      unfold AgentType.ofString?
      rw [if_neg g1, if_neg g2, if_neg g3]
    refine ⟨pyQuoted agentType ++ " is not a valid AgentType", ?_⟩
    unfold suggestAgentTransition
    simp [ho]

/-- Witness for C9: the persona string "cosmic" is rejected by both operations. -/
theorem unknown_persona_fails_fast_witness :
    (∃ msg, createAgent "cosmic" "s1" = Except.error msg) ∧
    (∃ msg, (suggestAgentTransition "cosmic" "hello" "s1" none []).1 =
      Except.error msg) :=
  unknown_persona_fails_fast "cosmic" "s1" "hello" "s1" none [] (by decide)

/-! ## C10: engagement and emotional state after a recorded interaction -/

theorem record_stored_shape (agentType userInput agentResponse studentId : String)
    (lessonId : Option String) (insights : Insight) (store : ChainStore) :
    ∃ c2, alistGet (recordAgentInteraction agentType userInput agentResponse studentId
        lessonId insights store) (chainKey studentId lessonId) =
      some (updateStudentState c2 userInput) := by
  unfold recordAgentInteraction
  exact ⟨_, alistGet_alistSet_self _ _ _⟩

/-- C10: after every recorded interaction the stored context's engagement
level is "high" exactly when the user input is longer than 50 characters,
"low" exactly when shorter than 10, and "medium" otherwise; its emotional
state is "positive" exactly when a positive keyword occurs in the lowercased
input (taking precedence over negative keywords), "challenged" exactly when a
negative keyword occurs and no positive one, and "neutral" otherwise. -/
theorem student_state_update_spec (agentType userInput agentResponse studentId : String)
    (lessonId : Option String) (insights : Insight) (store : ChainStore) :
    ∃ c, alistGet (recordAgentInteraction agentType userInput agentResponse studentId
        lessonId insights store) (chainKey studentId lessonId) = some c ∧
      ((c.engagementLevel = "high" ↔ 50 < userInput.length) ∧
       (c.engagementLevel = "low" ↔ userInput.length < 10) ∧
       (c.engagementLevel = "medium" ↔
         (10 ≤ userInput.length ∧ userInput.length ≤ 50))) ∧
      ((c.emotionalState = "positive" ↔
         ∃ word ∈ (["thank", "great", "love", "amazing", "wonderful", "helpful"] : List String),
           strContains (strLower userInput) word = true) ∧
       (c.emotionalState = "challenged" ↔
         ((¬ ∃ word ∈ (["thank", "great", "love", "amazing", "wonderful", "helpful"] : List String),
             strContains (strLower userInput) word = true) ∧
          (∃ word ∈ (["confused", "difficult", "hard", "frustrated", "stuck"] : List String),
             strContains (strLower userInput) word = true))) ∧
       (c.emotionalState = "neutral" ↔
         ((¬ ∃ word ∈ (["thank", "great", "love", "amazing", "wonderful", "helpful"] : List String),
             strContains (strLower userInput) word = true) ∧
          (¬ ∃ word ∈ (["confused", "difficult", "hard", "frustrated", "stuck"] : List String),
             strContains (strLower userInput) word = true)))) := by
  obtain ⟨c2, hc⟩ := record_stored_shape agentType userInput agentResponse studentId
    lessonId insights store
  refine ⟨updateStudentState c2 userInput, hc, ?_, ?_⟩
  · have heng : (updateStudentState c2 userInput).engagementLevel =
        (if userInput.length > 50 then "high"
         else if userInput.length < 10 then "low" else "medium") := rfl
    rw [heng]
    by_cases h1 : userInput.length > 50
    · rw [if_pos h1]
      exact ⟨iff_of_true rfl h1, iff_of_false (by decide) (by omega),
        iff_of_false (by decide) (by omega)⟩
    · rw [if_neg h1]
      by_cases h2 : userInput.length < 10
      · rw [if_pos h2]
        exact ⟨iff_of_false (by decide) (by omega), iff_of_true rfl h2,
          iff_of_false (by decide) (by omega)⟩
      · rw [if_neg h2]
        exact ⟨iff_of_false (by decide) (by omega), iff_of_false (by decide) (by omega),
          iff_of_true rfl ⟨by omega, by omega⟩⟩
  · have hemo : (updateStudentState c2 userInput).emotionalState =
        (if (["thank", "great", "love", "amazing", "wonderful", "helpful"] : List String).any
            (fun w => strContains (strLower userInput) w) then "positive"
         else if (["confused", "difficult", "hard", "frustrated", "stuck"] : List String).any
            (fun w => strContains (strLower userInput) w) then "challenged"
         else "neutral") := rfl
    rw [hemo]
    by_cases hpos : (["thank", "great", "love", "amazing", "wonderful", "helpful"] : List String).any
        (fun w => strContains (strLower userInput) w) = true
    · rw [if_pos hpos]
      exact ⟨iff_of_true rfl (List.any_eq_true.mp hpos),
        iff_of_false (by decide) (fun hcon => hcon.1 (List.any_eq_true.mp hpos)),
        iff_of_false (by decide) (fun hcon => hcon.1 (List.any_eq_true.mp hpos))⟩
    · rw [if_neg hpos]
      have hnp : ¬ ∃ word ∈ (["thank", "great", "love", "amazing", "wonderful", "helpful"] : List String),
          strContains (strLower userInput) word = true :=
        fun he => hpos (List.any_eq_true.mpr he)
      by_cases hneg : (["confused", "difficult", "hard", "frustrated", "stuck"] : List String).any
          (fun w => strContains (strLower userInput) w) = true
      · rw [if_pos hneg]
        exact ⟨iff_of_false (by decide) (fun he => hpos (List.any_eq_true.mpr he)),
          iff_of_true rfl ⟨hnp, List.any_eq_true.mp hneg⟩,
          iff_of_false (by decide) (fun hcon => hcon.2 (List.any_eq_true.mp hneg))⟩
      · rw [if_neg hneg]
        exact ⟨iff_of_false (by decide) (fun he => hpos (List.any_eq_true.mpr he)),
          iff_of_false (by decide) (fun hcon => hneg (List.any_eq_true.mpr hcon.2)),
          iff_of_true rfl ⟨hnp, fun he => hneg (List.any_eq_true.mpr he)⟩⟩

/-! ## C8: stored turn count accumulates across chat calls -/

/-- The stored turn count of a (student, lesson) chain (0 when absent). -/
def turnCount (store : ChainStore) (studentId : String) (lessonId : Option String) : Nat :=
  match alistGet store (chainKey studentId lessonId) with
  | some c => c.conversationHistory.length
  | none => 0

theorem updateStudentState_history (c : AgentChainContext) (u : String) :
    (updateStudentState c u).conversationHistory = c.conversationHistory := rfl

theorem addAgentInsight_history (c : AgentChainContext) (a : String) (i : Insight) :
    (c.addAgentInsight a i).conversationHistory = c.conversationHistory := rfl

theorem getOrCreateChain_fst_history (store : ChainStore) (studentId : String)
    (lessonId : Option String) :
    (getOrCreateChain store studentId lessonId).1.conversationHistory.length =
      turnCount store studentId lessonId := by
  unfold getOrCreateChain turnCount
  cases hk : alistGet store (chainKey studentId lessonId) with
  | some c => simp [hk]
  | none => simp [hk, newChainContext]

theorem getOrCreateChain_turnCount (store : ChainStore) (studentId : String)
    (lessonId : Option String) :
    turnCount (getOrCreateChain store studentId lessonId).2 studentId lessonId =
      turnCount store studentId lessonId := by
  unfold getOrCreateChain turnCount
  cases hk : alistGet store (chainKey studentId lessonId) with
  | some c => simp [hk]
  | none => simp [hk, alistGet_alistSet_self, newChainContext]

theorem record_turnCount (agentType userInput agentResponse studentId : String)
    (lessonId : Option String) (insights : Insight) (store : ChainStore) :
    turnCount (recordAgentInteraction agentType userInput agentResponse studentId
        lessonId insights store) studentId lessonId =
      turnCount store studentId lessonId + 1 := by
  have hfst := getOrCreateChain_fst_history store studentId lessonId
  unfold recordAgentInteraction
  unfold turnCount
  simp only [alistGet_alistSet_self]
  rw [updateStudentState_history]
  by_cases hins : insights ≠ []
  · rw [if_pos hins, addAgentInsight_history]
    show ((getOrCreateChain store studentId lessonId).1.conversationHistory ++ [_]).length = _
    rw [List.length_append, hfst]
    rfl
  · rw [if_neg hins]
    show ((getOrCreateChain store studentId lessonId).1.conversationHistory ++ [_]).length = _
    rw [List.length_append, hfst]
    rfl

theorem chatStep_turnCount (agentType userInput agentResponse studentId : String)
    (lessonId : Option String) (store : ChainStore) :
    turnCount (chatStep agentType userInput agentResponse studentId lessonId store)
        studentId lessonId = turnCount store studentId lessonId + 1 := by
  unfold chatStep
  rw [record_turnCount, suggestAgentTransition_snd, getOrCreateChain_turnCount]

theorem runChats_turnCount (studentId : String) (lessonId : Option String)
    (calls : List (String × String × String)) :
    ∀ store : ChainStore,
      turnCount (runChats studentId lessonId calls store) studentId lessonId =
        turnCount store studentId lessonId + calls.length := by
  induction calls with
  | nil => intro store; simp [runChats]
  | cons c rest ih =>
    intro store
    obtain ⟨a, u, r⟩ := c
    show turnCount (runChats studentId lessonId rest
      (chatStep a u r studentId lessonId store)) studentId lessonId = _
    rw [ih, chatStep_turnCount, List.length_cons]
    omega

theorem getChainSummary_turnCount (store : ChainStore) (studentId : String)
    (lessonId : Option String) :
    (getChainSummary studentId lessonId store).1.totalInteractions =
      turnCount store studentId lessonId := by
  unfold getChainSummary
  exact getOrCreateChain_fst_history store studentId lessonId

/-- C8: starting from a store with no chain for the (student, lesson) pair,
after `N` sequential chat calls the chain summary reports a stored turn count
of exactly `N`, whatever the inputs, responses and agent types of the calls
and despite the bounded display windows used elsewhere. -/
theorem chat_turn_count_accumulates (studentId : String) (lessonId : Option String)
    (calls : List (String × String × String)) (store : ChainStore)
    (hfresh : alistGet store (chainKey studentId lessonId) = none) :
    (getChainSummary studentId lessonId
        (runChats studentId lessonId calls store)).1.totalInteractions = calls.length := by
  rw [getChainSummary_turnCount, runChats_turnCount]
  have h0 : turnCount store studentId lessonId = 0 := by
    unfold turnCount
    simp [hfresh]
  rw [h0]
  omega

/-- Witness for C8: one chat call against an empty store yields turn count 1. -/
theorem chat_turn_count_accumulates_witness :
    (getChainSummary "s1" none
        (runChats "s1" none [("seed", "hello there", "welcome")] [])).1.totalInteractions = 1 :=
  chat_turn_count_accumulates "s1" none [("seed", "hello there", "welcome")] [] rfl

/-! ## C5: respond under an always-failing generator -/

set_option maxRecDepth 4000 in
/-- C5 counterexample: with the short input "hi" and a known lesson title,
`respond` takes the pre-generation fallback path and returns the contextual
fallback — the fixed fallback string with a lesson pointer appended — which
differs from the fixed fallback string itself, even though the generator
always raises. -/
theorem respond_fixed_fallback_counterexample :
    (treeAgent "s1").respond (fun _ => Except.error "generator down") "hi"
        { lessonTitle := "Kindness" } ≠ (treeAgent "s1").fallbackResponse := by
  decide

/-- C5 amended: if every invocation of the external generator raises, then
`respond` never raises and always returns a string that begins with the
persona's fixed fallback string; it is exactly the fixed fallback string
whenever the pre-generation fallback short-circuit (repetitive recent
conversation, or trimmed input shorter than 3 characters) does not fire. -/
theorem respond_generator_failure_fallback (agent : PersonaAgent)
    (gen : String → Except String String) (userInput : String) (ctx : RespondContext)
    (hgen : ∀ prompt, ∃ e, gen prompt = Except.error e) :
    (agent.fallbackResponse.data <+: (agent.respond gen userInput ctx).data) ∧
    (shouldUseFallback userInput ctx = false →
      agent.respond gen userInput ctx = agent.fallbackResponse) := by
  unfold PersonaAgent.respond
  by_cases hsf : shouldUseFallback userInput ctx = true
  · rw [if_pos hsf]
    constructor
    · unfold PersonaAgent.getContextualFallback
      by_cases ht : ctx.lessonTitle ≠ ""
      · rw [if_pos ht]
        simp only [String.data_append, List.append_assoc]
        exact List.prefix_append _ _
      · rw [if_neg ht]
    · intro hfalse
      rw [hsf] at hfalse
      exact Bool.noConfusion hfalse
  · rw [if_neg hsf]
    obtain ⟨e, hge⟩ := hgen (createEnhancedPrompt agent userInput ctx)
    rw [hge]
    exact ⟨List.prefix_refl _, fun _ => rfl⟩

/-- Witness for C5 (amended): a concrete Tree agent call with an
always-raising generator returns exactly the fixed fallback string. -/
theorem respond_generator_failure_fallback_witness :
    ((treeAgent "s1").fallbackResponse.data <+:
      ((treeAgent "s1").respond (fun _ => Except.error "generator down")
        "Tell me about dharma" {}).data) ∧
    (shouldUseFallback "Tell me about dharma" {} = false →
      (treeAgent "s1").respond (fun _ => Except.error "generator down")
        "Tell me about dharma" {} = (treeAgent "s1").fallbackResponse) :=
  respond_generator_failure_fallback (treeAgent "s1")
    (fun _ => Except.error "generator down") "Tell me about dharma" {}
    (fun _ => ⟨"generator down", rfl⟩)

/-! ## C4: the "What does this mean for my soul?" scenario from Practice -/

theorem eval_fst_false (rule : AgentTransitionRule) (userInput : String)
    (context : AgentChainContext)
    (h : ¬ rule.confidenceThreshold ≤ (rule.shouldTransitionEval userInput context).2) :
    (rule.shouldTransitionEval userInput context).1 = false :=
  bool_eq_false (fun ht => h ((shouldTransitionEval_fst_iff rule userInput context).mp ht))

/-- A rule none of whose triggers occurs in the input evaluates to
`(False, 0)` on a fresh chain context, provided its threshold is positive. -/
theorem eval_zero_matches (rule : AgentTransitionRule) (userInput : String)
    (studentId : String) (lessonId : Option String)
    (hsum : (rule.triggers.map
        (fun t => if strContains (strLower userInput) t then (1 : Nat) else 0)).sum = 0)
    (hne : rule.triggers ≠ []) (hthr : 0 < rule.confidenceThreshold) :
    rule.shouldTransitionEval userInput (newChainContext studentId lessonId) =
      (false, 0) := by
  have hv : (rule.shouldTransitionEval userInput
      (newChainContext studentId lessonId)).2 = 0 := by
    show rule.triggerConfidence userInput * 0.7
      + rule.contextScore (newChainContext studentId lessonId) * 0.3 = 0
    rw [triggerConfidence_eq_of_sum rule userInput 0 hsum hne,
      contextScore_newChainContext]
    norm_num
  have hb : (rule.shouldTransitionEval userInput
      (newChainContext studentId lessonId)).1 = false := by
    apply eval_fst_false
    rw [hv]
    exact not_le.mpr hthr
  calc rule.shouldTransitionEval userInput (newChainContext studentId lessonId)
      = ((rule.shouldTransitionEval userInput (newChainContext studentId lessonId)).1,
         (rule.shouldTransitionEval userInput (newChainContext studentId lessonId)).2) := rfl
    _ = (false, 0) := by rw [hb, hv]

theorem seed_soul_scan :
    scanRules AgentType.seed "What does this mean for my soul?"
      (newChainContext "student_1" none) transitionRules none 0 = (none, 0) := by
  have e0 := eval_zero_matches
    (⟨AgentType.seed, AgentType.tree,
      ["why", "explain", "understand", "principle", "concept", "theory", "because"],
      ["practice_attempts", "skill_questions", "conceptual_gaps"], 0.6⟩ : AgentTransitionRule)
    "What does this mean for my soul?" "student_1" none rfl (by simp) (by norm_num)
  have e4 := eval_zero_matches
    (⟨AgentType.seed, AgentType.sky,
      ["feel", "experience", "meaning", "why", "purpose", "spiritual"],
      ["experiential_questions", "deeper_inquiry"], 0.7⟩ : AgentTransitionRule)
    "What does this mean for my soul?" "student_1" none rfl (by simp) (by norm_num)
  simp [transitionRules, scanRules, e0, e4]

theorem seed_soul_stay :
    suggestFromContext AgentType.seed "What does this mean for my soul?"
        (newChainContext "student_1" none) =
      { shouldTransition := false, recommendedAgent := "seed", confidence := 1,
        reason := "No strong transition signals detected" } := by
  unfold suggestFromContext
  rw [seed_soul_scan]
  rfl

/-- C4 counterexample: starting from the Practice (seed) persona with the
message "What does this mean for my soul?", the suggestion does NOT transition
to the Reflection (sky) persona — the decision returned is not a
sky-recommending transition. -/
theorem seed_soul_message_counterexample :
    ¬ ∃ d, (suggestAgentTransition "seed" "What does this mean for my soul?"
        "student_1" none []).1 = Except.ok d ∧
      d.shouldTransition = true ∧ d.recommendedAgent = "sky" := by
  intro ⟨d, hd, htrue, _⟩
  have hfst : (suggestAgentTransition "seed" "What does this mean for my soul?"
      "student_1" none []).1 =
      Except.ok (suggestFromContext AgentType.seed "What does this mean for my soul?"
        (newChainContext "student_1" none)) := rfl
  rw [seed_soul_stay] at hfst
  rw [hfst] at hd
  injection hd with hd'
  rw [← hd'] at htrue
  exact absurd htrue (by decide)

/-- C4 amended: from the Practice (seed) persona, the message
"What does this mean for my soul?" matches no trigger of either
seed-originating rule — "soul" is not in the seed-to-sky trigger list (it
belongs to the tree-to-sky rule) and "meaning" is not a substring of the
message — so both rules evaluate to `(False, 0)`, below their thresholds of
0.6 and 0.7, and the decision is to stay on the Practice (seed) persona with
`should_transition = false` and confidence 1.0. -/
theorem seed_soul_message_amended :
    (∀ r ∈ transitionRules, r.fromAgent = AgentType.seed →
      r.shouldTransitionEval "What does this mean for my soul?"
        (newChainContext "student_1" none) = (false, 0)) ∧
    (suggestAgentTransition "seed" "What does this mean for my soul?"
        "student_1" none []).1 =
      Except.ok
        { shouldTransition := false, recommendedAgent := "seed", confidence := 1,
          reason := "No strong transition signals detected" } := by
  constructor
  · intro r hr hfrom
    fin_cases hr
    · exact eval_zero_matches _ _ "student_1" none rfl (by simp) (by norm_num)
    · exact absurd hfrom (by decide)
    · exact absurd hfrom (by decide)
    · exact absurd hfrom (by decide)
    · exact eval_zero_matches _ _ "student_1" none rfl (by simp) (by norm_num)
    · exact absurd hfrom (by decide)
  · have hfst : (suggestAgentTransition "seed" "What does this mean for my soul?"
        "student_1" none []).1 =
        Except.ok (suggestFromContext AgentType.seed "What does this mean for my soul?"
          (newChainContext "student_1" none)) := rfl
    rw [hfst, seed_soul_stay]

/-- Witness for C4 (amended): the seed-to-tree rule instantiates the
universally quantified part, and the stay decision is as stated. -/
theorem seed_soul_message_amended_witness :
    (⟨AgentType.seed, AgentType.tree,
      ["why", "explain", "understand", "principle", "concept", "theory", "because"],
      ["practice_attempts", "skill_questions", "conceptual_gaps"],
      0.6⟩ : AgentTransitionRule).shouldTransitionEval
        "What does this mean for my soul?" (newChainContext "student_1" none) =
      (false, 0) ∧
    (suggestAgentTransition "seed" "What does this mean for my soul?"
        "student_1" none []).1 =
      Except.ok
        { shouldTransition := false, recommendedAgent := "seed", confidence := 1,
          reason := "No strong transition signals detected" } :=
  ⟨seed_soul_message_amended.1 _ (by simp [transitionRules]) rfl,
   seed_soul_message_amended.2⟩

end Gurukul
